import Mathlib

/-!
Shallow embedding of the request-handling core of the repository
(`src/app/app.py` and `src/app/images.py`): the upload, feed and
delete HTTP handlers, with the database session, the media-store
client and UUID parsing modelled as explicit collaborators.

Conventions of the embedding:
* user ids and post ids (UUIDs in the source) are `Nat`;
* timestamps (`created_at`) are `Option Nat` (the column is nullable:
  the feed handler guards `post.created_at.isoformat() if post.created_at
  else None`);
* a Python call that may raise is modelled by an `Option String` /
  `Except String _` knob in an environment record: `some msg` means the
  call raised an exception whose `str` is `msg`;
* `fastapi.HTTPException` is an ordinary `Exception` subclass, so the
  broad `except Exception as e` blocks in the handlers catch it and
  re-raise `HTTPException(500, str(e))`; `str` of an `HTTPException`
  is `"{status_code}: {detail}"`, modelled by `httpExcStr`.
-/

namespace App

/-- A `Post` row (`app/db.py`), as constructed by `upload_file`
(app/app.py lines 79-85). -/
structure Post where
  id : Nat
  user_id : Nat
  caption : String
  url : String
  file_type : String
  file_name : String
  created_at : Option Nat
deriving DecidableEq, Repr

/-- The relational store seen by the handlers: the `Post` rows and the
`User` rows projected to (id, email), which is all the feed join reads. -/
structure DB where
  posts : List Post
  users : List (Nat × String)
deriving DecidableEq, Repr

/-- `str(HTTPException(status, detail))` as produced by
`starlette.exceptions.HTTPException.__str__`. -/
def httpExcStr (status : Nat) (detail : String) : String :=
  toString status ++ ": " ++ detail

/-! ## Upload handler (`upload_file`, app/app.py lines 55-102) -/

/-- The object returned by `imagekit.files.upload` (`upload_image` in
app/images.py): a `url` field (possibly `None`) and a canonical `name`. -/
structure UploadObj where
  url : Option String
  name : String
deriving DecidableEq, Repr

/-- Behaviour of the `upload_image` call: it either raises, or returns a
value (possibly `None`). -/
inductive UploadCall where
  | raises (msg : String)
  | returns (result : Option UploadObj)
deriving DecidableEq, Repr

/-- One execution environment for `upload_file`: what each fallible
collaborator call does on this request, plus the values the database
assigns to the new row (`id` default and server-side `created_at`). -/
structure UploadEnv where
  /-- `tempfile.NamedTemporaryFile(delete=False, ...)`: raises, or yields a path.
  On `.error`, `temp_file_path` is still `None` when `finally` runs. -/
  tempCreate : Except String String
  /-- `shutil.copyfileobj(file.file, temp_file)`: `some msg` if it raises. -/
  copyErr : Option String
  /-- the `upload_image(temp_file_path, file_name=...)` call. -/
  uploadCall : UploadCall
  /-- `session.add` + `await session.commit()`: `some msg` if it raises
  (the transaction is then rolled back, no row persisted). -/
  commitErr : Option String
  /-- `await session.refresh(post)`: `some msg` if it raises. It runs after
  the commit, so the row is already durable when it fails. -/
  refreshErr : Option String
  newPostId : Nat
  newCreatedAt : Option Nat
deriving Repr

/-- Result of one `upload_file` execution: the HTTP response (an
`HTTPException` as `(status, detail)`, or the persisted post), the final
post table, and whether the temporary file got unlinked in `finally`. -/
structure UploadOutcome where
  response : Except (Nat × String) Post
  posts : List Post
  tempDeleted : Bool
deriving Repr

/-- Python truthiness of `upload_result.url` (`None` and `""` are falsy). -/
def urlTruthy : Option String → Bool
  | none => false
  | some u => u != ""

/-- Python's `s.startswith(p)`: `p` is a prefix of `s`, modelled over the
underlying character lists. -/
def pyStartsWith (s p : String) : Bool :=
  p.data.isPrefixOf s.data

/-- `"video" if file.content_type and file.content_type.startswith("video/")
else "image"` (app/app.py line 83). `file.content_type` may be `None` or
empty, both falsy. -/
def classify_file_type : Option String → String
  | none => "image"
  | some ct => if (ct != "") && pyStartsWith ct "video/" then "video" else "image"

/-- The upload handler `upload_file` (app/app.py lines 55-102).

Control flow of the source: the whole body is a `try` with
`except Exception as e: raise HTTPException(500, str(e))` and a `finally`
that unlinks `temp_file_path` when it is set and closes the file. The
inner `raise HTTPException(500, "Upload failed")` is itself caught by the
`except` and re-wrapped. -/
def upload_file (env : UploadEnv) (content_type : Option String)
    (caption : String) (userId : Nat) (db : DB) : UploadOutcome :=
  match env.tempCreate with
  | .error msg =>
      -- NamedTemporaryFile raised: temp_file_path is None, nothing unlinked
      { response := .error (500, msg), posts := db.posts, tempDeleted := false }
  | .ok _path =>
    match env.copyErr with
    | some msg =>
        { response := .error (500, msg), posts := db.posts, tempDeleted := true }
    | none =>
      match env.uploadCall with
      | .raises msg =>
          { response := .error (500, msg), posts := db.posts, tempDeleted := true }
      | .returns result =>
        match result with
        | none =>
            -- `if upload_result and ...` is falsy: raise HTTPException(500,
            -- "Upload failed"), caught by the except and re-wrapped
            { response := .error (500, httpExcStr 500 "Upload failed"),
              posts := db.posts, tempDeleted := true }
        | some obj =>
          if urlTruthy obj.url then
            let post : Post :=
              { id := env.newPostId
                user_id := userId
                caption := caption
                url := obj.url.getD ""
                file_type := classify_file_type content_type
                file_name := obj.name
                created_at := env.newCreatedAt }
            match env.commitErr with
            | some msg =>
                { response := .error (500, msg), posts := db.posts, tempDeleted := true }
            | none =>
              match env.refreshErr with
              | some msg =>
                  -- commit already succeeded: the row is in the table,
                  -- but the handler answers 500
                  { response := .error (500, msg), posts := db.posts ++ [post],
                    tempDeleted := true }
              | none =>
                  { response := .ok post, posts := db.posts ++ [post],
                    tempDeleted := true }
          else
            { response := .error (500, httpExcStr 500 "Upload failed"),
              posts := db.posts, tempDeleted := true }

/-! ## Feed handler (`get_feed`, app/app.py lines 106-139) -/

/-- One element of the `posts` array the feed returns
(app/app.py lines 123-133). -/
structure PostView where
  id : String
  user_id : String
  caption : String
  url : String
  file_type : String
  file_name : String
  created_at : Option String
  is_owner : Bool
  email : String
deriving DecidableEq, Repr

/-- Sort key for `ORDER BY created_at DESC`: SQL `NULL` collates below
every value (SQLite), so `none` maps below every `some t`. -/
def createdKey : Option Nat → Nat
  | none => 0
  | some t => t + 1

/-- The comparator realising `order_by(Post.created_at.desc())`:
`a` may precede `b` when `a`'s key is at least `b`'s. -/
def newestFirst (a b : Post) : Bool :=
  createdKey b.created_at ≤ createdKey a.created_at

/-- `select(Post).order_by(Post.created_at.desc())` over the post table. -/
def feedPosts (db : DB) : List Post :=
  db.posts.mergeSort newestFirst

/-- `{u.id: u.email for u in users}` followed by `.get(key)`: a later
binding for the same id overwrites an earlier one. -/
def dictGet : List (Nat × String) → Nat → Option String
  | [], _ => none
  | (k, v) :: rest, key =>
    match dictGet rest key with
    | some r => some r
    | none => if k == key then some v else none

/-- The view the feed builds for one post (app/app.py lines 123-133):
`str(...)` on the ids, ISO timestamp or `None`, the ownership flag and the
email join with default `"Unknown"`. -/
def mkView (callerId : Nat) (users : List (Nat × String)) (post : Post) : PostView :=
  { id := toString post.id
    user_id := toString post.user_id
    caption := post.caption
    url := post.url
    file_type := post.file_type
    file_name := post.file_name
    created_at := post.created_at.map toString
    is_owner := post.user_id == callerId
    email := (dictGet users post.user_id).getD "Unknown" }

/-- The feed handler `get_feed` (app/app.py lines 106-139), success path:
posts newest-first, full user table joined in memory. -/
def get_feed (callerId : Nat) (db : DB) : List PostView :=
  (feedPosts db).map (mkView callerId db.users)

/-! ## Delete handler (`delete_post`, app/app.py lines 143-172) -/

/-- What one call of `delete_post` produces: an `HTTPException` with a
status and detail, or the success JSON `{success, message}`. -/
inductive DeleteOutcome where
  | http (status : Nat) (detail : String)
  | ok (success : Bool) (message : String)
deriving DecidableEq, Repr

/-- Result of one `delete_post` execution: the response, the final post
table, and whether the session was queried at all. -/
structure DeleteResult where
  outcome : DeleteOutcome
  posts : List Post
  dbAccessed : Bool
deriving DecidableEq, Repr

/-- The delete handler `delete_post` (app/app.py lines 143-172),
abstracted over the UUID parser (`uuid.UUID`, which raises `ValueError`
exactly when `parse` is `none`).

The 404 and 403 `HTTPException`s are raised inside the second `try`
block; its `except Exception as e` catches them (`HTTPException` is an
`Exception`) and re-raises `HTTPException(500, str(e))`, so the client
sees 500 with `str` of the original exception as detail. -/
def delete_post (parse : String → Option Nat) (post_id : String)
    (callerId : Nat) (db : DB) : DeleteResult :=
  match parse post_id with
  | none =>
      -- except ValueError: raise HTTPException(400, ...), outside the
      -- second try, before any session use
      { outcome := .http 400 "Invalid post ID format",
        posts := db.posts, dbAccessed := false }
  | some post_uuid =>
    match db.posts.find? (fun p => p.id == post_uuid) with
    | none =>
        { outcome := .http 500 (httpExcStr 404 "Post not found"),
          posts := db.posts, dbAccessed := true }
    | some post =>
      if post.user_id != callerId then
        { outcome := .http 500
            (httpExcStr 403 "You don't have permission to delete this post"),
          posts := db.posts, dbAccessed := true }
      else
        -- session.delete(post); commit: the row with this primary key goes
        { outcome := .ok true "Post deleted successfully",
          posts := db.posts.filter (fun p => !(p.id == post_uuid)),
          dbAccessed := true }

/-! ## Shared concrete data for witnesses and counterexamples -/

/-- A concrete post owned by user 1. -/
def post1 : Post :=
  { id := 1, user_id := 1, caption := "hello", url := "http://cdn/p1",
    file_type := "image", file_name := "p1.png", created_at := some 5 }

/-- A concrete instantiation of the identifier parser (`uuid.UUID`) for
witnesses: it accepts exactly the identifier strings "1" and "7". -/
def idParse (s : String) : Option Nat :=
  if s = "1" then some 1 else if s = "7" then some 7 else none

/-! ## Delete handler theorems -/

/-- Claim C3: a delete request whose identifier does not parse as a UUID
fails with HTTP 400 before any database access: the session is never
queried and the post table is unchanged. -/
theorem delete_post_malformed_id_400 (parse : String → Option Nat)
    (pid : String) (callerId : Nat) (db : DB) (h : parse pid = none) :
    (delete_post parse pid callerId db).outcome = .http 400 "Invalid post ID format" ∧
    (delete_post parse pid callerId db).posts = db.posts ∧
    (delete_post parse pid callerId db).dbAccessed = false := by
  simp [delete_post, h]

/-- Witness for `delete_post_malformed_id_400` at the malformed
identifier `"not-a-uuid"`, with `idParse` instantiating the
identifier parser. -/
theorem delete_post_malformed_id_400_witness :
    (delete_post idParse "not-a-uuid" 2 ⟨[post1], []⟩).outcome =
        .http 400 "Invalid post ID format" ∧
    (delete_post idParse "not-a-uuid" 2 ⟨[post1], []⟩).posts = [post1] ∧
    (delete_post idParse "not-a-uuid" 2 ⟨[post1], []⟩).dbAccessed = false :=
  delete_post_malformed_id_400 idParse "not-a-uuid" 2 ⟨[post1], []⟩ rfl

/-- Claim C1 (code bug): caller 2 deletes post 1 owned by user 1. The
handler raises `HTTPException(403, ...)`, but the enclosing
`except Exception` (app/app.py line 169) catches it and re-raises
`HTTPException(500, str(e))`, so the client receives HTTP 500, not 403.
The post does remain: the table is unchanged and a subsequent feed call
still returns it. -/
theorem delete_post_nonowner_gets_500 :
    (delete_post idParse "1" 2 ⟨[post1], []⟩).outcome =
      .http 500 (httpExcStr 403 "You don't have permission to delete this post") ∧
    (delete_post idParse "1" 2 ⟨[post1], []⟩).posts = [post1] ∧
    mkView 2 [] post1 ∈
      get_feed 2 ⟨(delete_post idParse "1" 2 ⟨[post1], []⟩).posts, []⟩ := by
  refine ⟨rfl, rfl, ?_⟩
  simp [get_feed, feedPosts, delete_post, idParse, post1]

/-- Claim C2 (code bug): deleting the well-formed identifier `"7"` that
matches no post raises `HTTPException(404, "Post not found")`, which the
enclosing `except Exception` catches and converts to HTTP 500 with
`str(e)` as detail, so the client receives 500, not 404. -/
theorem delete_post_missing_gets_500 :
    (delete_post idParse "7" 2 ⟨[post1], []⟩).outcome =
      .http 500 (httpExcStr 404 "Post not found") ∧
    (delete_post idParse "7" 2 ⟨[post1], []⟩).posts = [post1] := by
  exact ⟨rfl, rfl⟩

/-! ## Feed handler theorems -/

/-- `dictGet` finds nothing when no binding carries the key. -/
theorem dictGet_eq_none (l : List (Nat × String)) (k : Nat)
    (h : ∀ u ∈ l, u.1 ≠ k) : dictGet l k = none := by
  induction l with
  | nil => rfl
  | cons hd tl ih =>
    obtain ⟨a, b⟩ := hd
    have ha : a ≠ k := h (a, b) (List.mem_cons_self _ _)
    have htl : ∀ u ∈ tl, u.1 ≠ k := fun u hu => h u (List.mem_cons_of_mem _ hu)
    simp [dictGet, ih htl, ha]

/-- With pairwise-distinct keys, `dictGet` returns the bound value. -/
theorem dictGet_eq_some (l : List (Nat × String)) (k : Nat) (e : String)
    (hnd : (l.map Prod.fst).Nodup) (h : (k, e) ∈ l) : dictGet l k = some e := by
  induction l with
  | nil => cases h
  | cons hd tl ih =>
    obtain ⟨a, b⟩ := hd
    simp only [List.map_cons, List.nodup_cons] at hnd
    obtain ⟨ha, htl⟩ := hnd
    rcases List.mem_cons.mp h with heq | hmem
    · obtain ⟨rfl, rfl⟩ := Prod.mk.injEq .. ▸ heq
      have hnone : dictGet tl k = none := by
        apply dictGet_eq_none
        intro u hu hk
        exact ha (hk ▸ List.mem_map_of_mem Prod.fst hu)
      simp [dictGet, hnone]
    · simp [dictGet, ih htl hmem]

/-- Claim C7: the feed is the post table sorted by `created_at`
descending (`NULL` last): `get_feed` maps the view constructor over a
permutation of the post table that is pairwise ordered by descending
timestamp key. -/
theorem get_feed_sorted_desc (c : Nat) (db : DB) :
    get_feed c db = (feedPosts db).map (mkView c db.users) ∧
    (feedPosts db).Perm db.posts ∧
    (feedPosts db).Pairwise
      (fun a b => createdKey b.created_at ≤ createdKey a.created_at) := by
  refine ⟨rfl, List.mergeSort_perm db.posts newestFirst, ?_⟩
  have h : (db.posts.mergeSort newestFirst).Pairwise
      (fun a b => newestFirst a b = true) := List.sorted_mergeSort
    (fun a b c hab hbc => by
      simp only [newestFirst, decide_eq_true_eq] at hab hbc ⊢
      omega)
    (fun a b => by
      simp only [newestFirst, Bool.or_eq_true, decide_eq_true_eq]
      omega)
    db.posts
  exact h.imp (fun hab => by
    simpa only [newestFirst, decide_eq_true_eq] using hab)

/-- Claim C8: every view in the feed comes from a post of the table;
its `is_owner` flag is true exactly when that post's `user_id` is the
caller's id, and its `email` is the owning user's email, `"Unknown"`
when no user row carries the post's `user_id`. -/
theorem get_feed_owner_email (c : Nat) (db : DB)
    (hnd : (db.users.map Prod.fst).Nodup)
    (v : PostView) (hv : v ∈ get_feed c db) :
    ∃ p, p ∈ db.posts ∧ v = mkView c db.users p ∧
      (v.is_owner = true ↔ p.user_id = c) ∧
      ((∀ u ∈ db.users, u.1 ≠ p.user_id) → v.email = "Unknown") ∧
      (∀ e, (p.user_id, e) ∈ db.users → v.email = e) := by
  obtain ⟨p, hp, rfl⟩ := List.mem_map.mp hv
  have hmem : p ∈ db.posts := List.mem_mergeSort.mp hp
  refine ⟨p, hmem, rfl, ?_, ?_, ?_⟩
  · simp [mkView]
  · intro h
    simp [mkView, dictGet_eq_none db.users p.user_id h]
  · intro e he
    simp [mkView, dictGet_eq_some db.users p.user_id e hnd he]

/-- Witness for `get_feed_owner_email`: caller 1 viewing the table with
the single post `post1` (owned by user 1, whose email is "a@b.c"). -/
theorem get_feed_owner_email_witness :
    ∃ p, p ∈ (⟨[post1], [(1, "a@b.c")]⟩ : DB).posts ∧
      mkView 1 [(1, "a@b.c")] post1 = mkView 1 [(1, "a@b.c")] p ∧
      ((mkView 1 [(1, "a@b.c")] post1).is_owner = true ↔ p.user_id = 1) ∧
      ((∀ u ∈ [((1 : Nat), "a@b.c")], u.1 ≠ p.user_id) →
        (mkView 1 [(1, "a@b.c")] post1).email = "Unknown") ∧
      (∀ e, (p.user_id, e) ∈ [((1 : Nat), "a@b.c")] →
        (mkView 1 [(1, "a@b.c")] post1).email = e) :=
  get_feed_owner_email 1 ⟨[post1], [(1, "a@b.c")]⟩ (by simp)
    (mkView 1 [(1, "a@b.c")] post1)
    (by simp [get_feed, feedPosts])

/-! ## Upload handler theorems -/

/-- A truthy `url` field is a `some` of its non-empty default-extracted
value. -/
theorem urlTruthy_eq (o : Option String) (h : urlTruthy o = true) :
    o = some (o.getD "") ∧ o.getD "" ≠ "" := by
  cases o with
  | none => simp [urlTruthy] at h
  | some u =>
    simp only [urlTruthy, bne_iff_ne, ne_eq] at h
    simpa using h

/-- If `upload_file` answers with a post, every stage succeeded and the
post is exactly the row built at app/app.py lines 79-85. -/
theorem upload_file_ok_elim (env : UploadEnv) (ct : Option String)
    (cap : String) (uid : Nat) (db : DB) (post : Post)
    (h : (upload_file env ct cap uid db).response = .ok post) :
    ∃ obj, env.uploadCall = .returns (some obj) ∧ urlTruthy obj.url = true ∧
      post = { id := env.newPostId, user_id := uid, caption := cap,
               url := obj.url.getD "", file_type := classify_file_type ct,
               file_name := obj.name, created_at := env.newCreatedAt } := by
  obtain ⟨tc, ce, uc, cme, re, npid, nca⟩ := env
  cases tc with
  | error msg => simp [upload_file] at h
  | ok path =>
    cases ce with
    | some msg => simp [upload_file] at h
    | none =>
      cases uc with
      | raises msg => simp [upload_file] at h
      | returns result =>
        cases result with
        | none => simp [upload_file] at h
        | some obj =>
          cases hu : urlTruthy obj.url with
          | false => simp [upload_file, hu] at h
          | true =>
            cases cme with
            | some msg => simp [upload_file, hu] at h
            | none =>
              cases re with
              | some msg => simp [upload_file, hu] at h
              | none =>
                simp only [upload_file, hu, if_true] at h
                exact ⟨obj, rfl, hu, (Except.ok.injEq _ _ ▸ h).symm⟩

/-- Claim C4: the persisted post of a successful upload is classified
`"video"` exactly when a content type was declared and it starts with
`"video/"`; in every other case it is classified `"image"`. -/
theorem upload_file_classification (env : UploadEnv) (ct : Option String)
    (cap : String) (uid : Nat) (db : DB) (post : Post)
    (h : (upload_file env ct cap uid db).response = .ok post) :
    (post.file_type = "video" ↔ ∃ s, ct = some s ∧ pyStartsWith s "video/" = true) ∧
    (post.file_type = "video" ∨ post.file_type = "image") := by
  obtain ⟨obj, -, -, rfl⟩ := upload_file_ok_elim env ct cap uid db post h
  simp only [classify_file_type]
  cases ct with
  | none => simp
  | some s =>
    by_cases he : s = ""
    · subst he
      have hpre : pyStartsWith "" "video/" = false := by decide
      simp [hpre]
    · by_cases hs : pyStartsWith s "video/"
      · simp [he, hs]
      · simp [he, hs]

/-- The environment for upload witnesses: every collaborator call
succeeds and the media store answers with a non-empty URL. -/
def wEnv : UploadEnv :=
  { tempCreate := .ok "/tmp/u", copyErr := none,
    uploadCall := .returns (some { url := some "http://cdn/img", name := "img_1" }),
    commitErr := none, refreshErr := none,
    newPostId := 3, newCreatedAt := some 10 }

/-- The post `wEnv` persists for a caller 1 upload of a `"video/mp4"`
payload with caption "clip". -/
def wPostVid : Post :=
  { id := 3, user_id := 1, caption := "clip", url := "http://cdn/img",
    file_type := "video", file_name := "img_1", created_at := some 10 }

/-- Witness for `upload_file_classification`: uploading with declared
content type `"video/mp4"` in `wEnv` yields `wPostVid`, classified
`"video"`. -/
theorem upload_file_classification_witness :
    (wPostVid.file_type = "video" ↔
      ∃ s, (some "video/mp4" : Option String) = some s ∧
        pyStartsWith s "video/" = true) ∧
    (wPostVid.file_type = "video" ∨ wPostVid.file_type = "image") :=
  upload_file_classification wEnv (some "video/mp4") "clip" 1 ⟨[], []⟩ wPostVid rfl

/-- Claim C10: a missing (`None`) or empty declared content type does not
make the handler fail; the persisted post is classified `"image"`. -/
theorem upload_file_missing_content_type (env : UploadEnv) (ct : Option String)
    (cap : String) (uid : Nat) (db : DB) (post : Post)
    (hct : ct = none ∨ ct = some "")
    (h : (upload_file env ct cap uid db).response = .ok post) :
    post.file_type = "image" := by
  obtain ⟨obj, -, -, rfl⟩ := upload_file_ok_elim env ct cap uid db post h
  rcases hct with rfl | rfl
  · rfl
  · rfl

/-- The post `wEnv` persists for a caller 1 upload without a declared
content type, caption "hi". -/
def wPostImg : Post :=
  { id := 3, user_id := 1, caption := "hi", url := "http://cdn/img",
    file_type := "image", file_name := "img_1", created_at := some 10 }

/-- Witness for `upload_file_missing_content_type`: uploading with no
declared content type in `wEnv` yields `wPostImg`, classified `"image"`. -/
theorem upload_file_missing_content_type_witness :
    wPostImg.file_type = "image" :=
  upload_file_missing_content_type wEnv none "hi" 1 ⟨[], []⟩ wPostImg
    (Or.inl rfl) rfl

/-- Claim C6: whenever the temporary file was actually created
(`NamedTemporaryFile` returned a path), the `finally` block unlinks it on
every exit path of the handler, success or failure. -/
theorem upload_file_temp_released (env : UploadEnv) (ct : Option String)
    (cap : String) (uid : Nat) (db : DB) (path : String)
    (h : env.tempCreate = .ok path) :
    (upload_file env ct cap uid db).tempDeleted = true := by
  obtain ⟨tc, ce, uc, cme, re, npid, nca⟩ := env
  cases tc with
  | error msg => exact absurd h (by simp)
  | ok pa =>
    cases ce with
    | some msg => rfl
    | none =>
      cases uc with
      | raises msg => rfl
      | returns result =>
        cases result with
        | none => rfl
        | some obj =>
          cases hu : urlTruthy obj.url with
          | false => simp [upload_file, hu]
          | true =>
            cases cme with
            | some msg => simp [upload_file, hu]
            | none =>
              cases re with
              | some msg => simp [upload_file, hu]
              | none => simp [upload_file, hu]

/-- Witness for `upload_file_temp_released` at the all-success
environment `wEnv`. -/
theorem upload_file_temp_released_witness :
    (upload_file wEnv none "hi" 1 ⟨[], []⟩).tempDeleted = true :=
  upload_file_temp_released wEnv none "hi" 1 ⟨[], []⟩ "/tmp/u" rfl

/-- Claim C9: every row of the post table after an upload execution was
already there before, or carries the non-empty URL the media store
confirmed: no post is persisted from an absent upload result or an empty
URL. -/
theorem upload_file_posted_url_nonempty (env : UploadEnv) (ct : Option String)
    (cap : String) (uid : Nat) (db : DB) (p : Post)
    (hp : p ∈ (upload_file env ct cap uid db).posts) :
    p ∈ db.posts ∨
      (p.url ≠ "" ∧
        ∃ obj, env.uploadCall = .returns (some obj) ∧ obj.url = some p.url) := by
  obtain ⟨tc, ce, uc, cme, re, npid, nca⟩ := env
  cases tc with
  | error msg => exact Or.inl hp
  | ok pa =>
    cases ce with
    | some msg => exact Or.inl hp
    | none =>
      cases uc with
      | raises msg => exact Or.inl hp
      | returns result =>
        cases result with
        | none => exact Or.inl hp
        | some obj =>
          cases hu : urlTruthy obj.url with
          | false =>
            simp only [upload_file, hu, Bool.false_eq_true, if_false] at hp
            exact Or.inl hp
          | true =>
            obtain ⟨ho, hne⟩ := urlTruthy_eq obj.url hu
            cases cme with
            | some msg =>
              simp only [upload_file, hu, if_true] at hp
              exact Or.inl hp
            | none =>
              cases re with
              | some msg =>
                simp only [upload_file, hu, if_true] at hp
                rcases List.mem_append.mp hp with h1 | h2
                · exact Or.inl h1
                · have hpe := List.mem_singleton.mp h2
                  subst hpe
                  exact Or.inr ⟨hne, obj, rfl, ho⟩
              | none =>
                simp only [upload_file, hu, if_true] at hp
                rcases List.mem_append.mp hp with h1 | h2
                · exact Or.inl h1
                · have hpe := List.mem_singleton.mp h2
                  subst hpe
                  exact Or.inr ⟨hne, obj, rfl, ho⟩

/-- Witness for `upload_file_posted_url_nonempty`: the row `wEnv` adds to
an empty table carries the confirmed URL "http://cdn/img". -/
theorem upload_file_posted_url_nonempty_witness :
    wPostImg ∈ (⟨[], []⟩ : DB).posts ∨
      (wPostImg.url ≠ "" ∧
        ∃ obj, wEnv.uploadCall = .returns (some obj) ∧ obj.url = some wPostImg.url) :=
  upload_file_posted_url_nonempty wEnv none "hi" 1 ⟨[], []⟩ wPostImg (by decide)

/-- Every stage of `upload_file` up to and including the database commit
succeeded: the temp file was created and filled, the media store
returned an object with a truthy URL, and the commit went through. -/
def commitSucceeded (env : UploadEnv) : Bool :=
  (match env.tempCreate with | .ok _ => true | .error _ => false) &&
  env.copyErr.isNone &&
  (match env.uploadCall with
   | .returns (some obj) => urlTruthy obj.url
   | _ => false) &&
  env.commitErr.isNone

/-- The environment in which everything up to the commit succeeds and
only the post-commit `session.refresh` raises. -/
def refreshFailEnv : UploadEnv :=
  { tempCreate := .ok "/tmp/u", copyErr := none,
    uploadCall := .returns (some { url := some "http://cdn/img", name := "img_1" }),
    commitErr := none, refreshErr := some "connection reset",
    newPostId := 3, newCreatedAt := some 10 }

/-- Counterexample to claim C5 as stated: when the post-commit
`session.refresh` (app/app.py line 89) raises, the handler answers a
500 error, yet the committed Post row stays in the table: the database
state is NOT unchanged on this error. -/
theorem upload_file_refresh_failure_persists_row :
    (upload_file refreshFailEnv (some "image/png") "hi" 1 ⟨[], []⟩).response =
      .error (500, "connection reset") ∧
    (upload_file refreshFailEnv (some "image/png") "hi" 1 ⟨[], []⟩).posts =
      [{ id := 3, user_id := 1, caption := "hi", url := "http://cdn/img",
         file_type := "image", file_name := "img_1", created_at := some 10 }] :=
  ⟨rfl, rfl⟩

/-- Claim C5 (amended): when any stage up to and including the commit
fails — temp-file I/O, remote upload raising or answering without a
truthy URL, or the commit itself — no Post row is created, the table is
unchanged, and the caller receives a single HTTP 500 with a message. -/
theorem upload_file_no_row_on_early_failure (env : UploadEnv)
    (ct : Option String) (cap : String) (uid : Nat) (db : DB)
    (h : commitSucceeded env = false) :
    (upload_file env ct cap uid db).posts = db.posts ∧
    ∃ d, (upload_file env ct cap uid db).response = .error (500, d) := by
  obtain ⟨tc, ce, uc, cme, re, npid, nca⟩ := env
  cases tc with
  | error msg => exact ⟨rfl, msg, rfl⟩
  | ok pa =>
    cases ce with
    | some msg => exact ⟨rfl, msg, rfl⟩
    | none =>
      cases uc with
      | raises msg => exact ⟨rfl, msg, rfl⟩
      | returns result =>
        cases result with
        | none => exact ⟨rfl, httpExcStr 500 "Upload failed", rfl⟩
        | some obj =>
          cases hu : urlTruthy obj.url with
          | false =>
            refine ⟨?_, httpExcStr 500 "Upload failed", ?_⟩ <;>
              simp [upload_file, hu]
          | true =>
            cases cme with
            | some msg =>
              refine ⟨?_, msg, ?_⟩ <;> simp [upload_file, hu]
            | none =>
              exfalso
              simp [commitSucceeded, hu] at h

/-- The environment in which only the database commit raises. -/
def commitFailEnv : UploadEnv :=
  { tempCreate := .ok "/tmp/u", copyErr := none,
    uploadCall := .returns (some { url := some "http://cdn/img", name := "img_1" }),
    commitErr := some "db unavailable", refreshErr := none,
    newPostId := 3, newCreatedAt := some 10 }

/-- Witness for `upload_file_no_row_on_early_failure` at the environment
whose commit fails: the table keeps exactly `post1`. -/
theorem upload_file_no_row_on_early_failure_witness :
    (upload_file commitFailEnv none "hi" 1 ⟨[post1], []⟩).posts = [post1] ∧
    ∃ d, (upload_file commitFailEnv none "hi" 1 ⟨[post1], []⟩).response =
      .error (500, d) :=
  upload_file_no_row_on_early_failure commitFailEnv none "hi" 1 ⟨[post1], []⟩ rfl

end App
